import Mathlib

/-
Shallow embedding of the Twitch EventSub WebSocket client
(src/twitch.py, class TwitchEventSub) for checking the natural-language
specification against the code.

Modelling conventions:
- Python dicts whose keys are strings are modelled as association lists
  with first-match lookup (dictGet / dictSet / dictRemove); CPython dicts
  have unique keys and preserve insertion order, which these operations
  respect on key-unique lists.
- JSON values are modelled by the inductive type Json; json.loads either
  yields such a value or fails, which is modelled by the RawMessage input
  distinction (RawMessage.badJson stands for a wire frame whose bytes do
  not decode to valid JSON; the json.JSONDecodeError it raises is caught
  inside _process_message).
- Timestamps are whole seconds as Nat.  Real-number comparisons from the
  source are rewritten additively (now >= t - 60 becomes now + 60 >= t,
  and now - t > 300 becomes t + 300 < now) so that no truncating natural
  subtraction changes their truth value.
- Python truthiness is modelled exactly: None, the empty string, 0 and
  empty containers are falsy (strTruthy, pyTruthy, jsonTruthy, and the
  nonzero test on optional numeric fields).
- Network calls (token endpoint, validate endpoint, subscription
  endpoint, the WebSocket connect/recv of a migration) are suspension
  points whose outcomes are passed in as oracle arguments; the functions
  below return, besides their results, the observable counts or flags of
  the calls they issue.
- Event handler callbacks are abstract: a Handler carries an identifier
  and a flag saying whether invoking it raises.  Dispatch returns the
  trace of invocations (handler id paired with the payload it was given)
  plus the list of handler ids whose exceptions were caught and logged.
-/

/-! ## Python-style string-keyed dictionaries -/

/-- Lookup in a string-keyed dict (first match). -/
def dictGet {β : Type} : List (String × β) → String → Option β
  | [], _ => none
  | (k', v) :: rest, k => if k' = k then some v else dictGet rest k

/-- Removal of a key from a dict, as done by dict.pop. -/
def dictRemove {β : Type} : List (String × β) → String → List (String × β)
  | [], _ => []
  | (k', v) :: rest, k => if k' = k then rest else (k', v) :: dictRemove rest k

/-- Update or insert of a key in a dict; a fresh key is appended at the
end, matching CPython insertion order. -/
def dictSet {β : Type} : List (String × β) → String → β → List (String × β)
  | [], k, v => [(k, v)]
  | (k', v') :: rest, k, v =>
    if k' = k then (k, v) :: rest else (k', v') :: dictSet rest k v

/-! ## JSON values -/

/-- JSON values as produced by json.loads. -/
inductive Json where
  | null
  | bool (b : Bool)
  | num (n : Int)
  | str (s : String)
  | arr (elems : List Json)
  | obj (fields : List (String × Json))

/-- Python truthiness of a JSON value: None, False, 0, the empty string
and empty containers are falsy. -/
def jsonTruthy : Json → Bool
  | .null => false
  | .bool b => b
  | .num n => n != 0
  | .str s => s != ""
  | .arr elems => !elems.isEmpty
  | .obj fields => !fields.isEmpty

/-- Python truthiness of an optional JSON value (None is falsy). -/
def pyTruthy : Option Json → Bool
  | none => false
  | some j => jsonTruthy j

/-- Python truthiness of an Optional str field: None and the empty
string are falsy. -/
def strTruthy : Option String → Bool
  | none => false
  | some s => s != ""

/-! ## Callback dispatcher (event_callbacks, _trigger_callback,
add_event_callback) -/

/-- An abstract registered callback: an identifier plus whether awaiting
it raises an exception. -/
structure Handler where
  hid : Nat
  fails : Bool
  deriving DecidableEq, Repr

/-- The event_callbacks dict: event-type string to ordered handler list. -/
abbrev Registry := List (String × List Handler)

/-- Awaiting one callback: Except models the exception the try/except
inside _trigger_callback catches. -/
def invokeHandler (h : Handler) : Except Unit Unit :=
  if h.fails then .error () else .ok ()

/-- The for-loop body of _trigger_callback: each callback is awaited in
list order inside try/except; an exception is logged (second component)
and the loop continues.  First component: the invocation trace, handler
id paired with the data it received. -/
def runHandlers : List Handler → Json → List (Nat × Json) × List Nat
  | [], _ => ([], [])
  | h :: rest, d =>
    let tail := runHandlers rest d
    match invokeHandler h with
    | .ok _ => ((h.hid, d) :: tail.1, tail.2)
    | .error _ => ((h.hid, d) :: tail.1, h.hid :: tail.2)

/-- TwitchEventSub._trigger_callback: if the event type is a key of
event_callbacks, run every bound handler in order; otherwise do
nothing. -/
def trigger_callback (reg : Registry) (event_type : String) (data : Json) :
    List (Nat × Json) × List Nat :=
  match dictGet reg event_type with
  | none => ([], [])
  | some hs => runHandlers hs data

/-- TwitchEventSub.add_event_callback: ensure a (possibly empty) list is
present for the key, then append the callback to it. -/
def add_event_callback (reg : Registry) (event_type : String) (h : Handler) :
    Registry :=
  dictSet reg event_type (((dictGet reg event_type).getD []) ++ [h])

/-- Triggering with a key taken straight from a JSON metadata field, as
_handle_notification_message does: the registry is keyed by strings, so
a missing or non-string subscription_type matches no entry. -/
def triggerByKey (reg : Registry) (key : Option Json) (data : Json) :
    List (Nat × Json) :=
  match key with
  | some (.str s) => (trigger_callback reg s data).1
  | _ => []

/-! ## Token storage and the token manager -/

/-- The token fields of the client (access_token, refresh_token,
token_type, token_expires_at, scopes). -/
structure TokenSet where
  access_token : Option String
  refresh_token : Option String
  token_type : String
  token_expires_at : Option Nat
  scopes : List String
  deriving DecidableEq, Repr

/-- Body of a successful token-endpoint response, as consumed by
_store_token_data (access_token is mandatory there; the rest use
dict.get). -/
structure TokenData where
  access_token : String
  refresh_token : Option String
  scope : Option (List String)
  expires_in : Option Nat
  deriving DecidableEq, Repr

/-- TwitchEventSub._store_token_data: install the response as the new
user-kind token set.  The conditional on expires_in reflects the Python
truthiness test (expires_in of 0 or absent leaves token_expires_at
unchanged). -/
def store_token_data (ts : TokenSet) (now : Nat) (td : TokenData) : TokenSet :=
  { access_token := some td.access_token
    refresh_token := td.refresh_token
    token_type := "user"
    scopes := td.scope.getD []
    token_expires_at :=
      match td.expires_in with
      | some e => if e != 0 then some (now + e) else ts.token_expires_at
      | none => ts.token_expires_at }

/-- One recorded OAuth state (the value stored in self.oauth_states). -/
structure OAuthState where
  scopes : List String
  timestamp : Nat
  deriving DecidableEq, Repr

/-- OAuth state expiration time, seconds (TwitchEventSub.OAUTH_STATE_EXPIRY). -/
def OAUTH_STATE_EXPIRY : Nat := 300

/-- Outcome of the POST to the token endpoint inside
exchange_code_for_token: a 200 response with a parsed body, or any
failure (non-200 status, transport error, malformed body), all of which
the source turns into TwitchAuthenticationError with tokens unchanged. -/
inductive ExchangeNet where
  | success (td : TokenData)
  | failure
  deriving DecidableEq, Repr

/-- Errors raised by the modelled operations.  invalidState and
expiredState are the two ValueError messages of
exchange_code_for_token; authenticationError is
TwitchAuthenticationError. -/
inductive PyError where
  | invalidState
  | expiredState
  | authenticationError
  deriving DecidableEq, Repr

/-- TwitchEventSub.exchange_code_for_token, state-validation part plus
the oracle network outcome.  Returns (result, new oauth_states table,
new token set).  The age test (now - timestamp > 300) is written
additively as timestamp + 300 < now. -/
def exchange_code_for_token (states : List (String × OAuthState))
    (ts : TokenSet) (now : Nat) (s : String) (net : ExchangeNet) :
    Except PyError Unit × List (String × OAuthState) × TokenSet :=
  match dictGet states s with
  | none => (.error .invalidState, states, ts)
  | some od =>
    let states' := dictRemove states s
    if od.timestamp + OAUTH_STATE_EXPIRY < now then
      (.error .expiredState, states', ts)
    else
      match net with
      | .success td => (.ok (), states', store_token_data ts now td)
      | .failure => (.error .authenticationError, states', ts)

/-- Outcome of one oracle network call (refresh_user_token or
validate_token) as observed by ensure_valid_token: either success or
TwitchAuthenticationError. -/
inductive CallResult where
  | ok
  | authError
  deriving DecidableEq, Repr

/-- The expiry test of ensure_valid_token:
(self.token_expires_at and time.time() >= self.token_expires_at - 60).
The float truthiness of token_expires_at makes a zero timestamp falsy,
and the real-number comparison now >= t - 60 is written additively. -/
def tokenExpiringSoon (ts : TokenSet) (now : Nat) : Bool :=
  match ts.token_expires_at with
  | none => false
  | some t => t != 0 && decide (t ≤ now + 60)

/-- TwitchEventSub.ensure_valid_token.  Returns (result, number of
refresh_user_token calls issued, number of validate_token calls
issued); the oracle arguments r and v give the outcomes of those calls.
A successful refresh also updates the stored tokens, which no claim
observes, so the token mutation is not threaded through. -/
def ensure_valid_token (ts : TokenSet) (now : Nat) (r v : CallResult) :
    Except PyError Unit × Nat × Nat :=
  if strTruthy ts.access_token = false then
    (.error .authenticationError, 0, 0)
  else if tokenExpiringSoon ts now then
    if strTruthy ts.refresh_token && (ts.token_type == "user") then
      match r with
      | .ok => (.ok (), 1, 0)
      | .authError => (.error .authenticationError, 1, 0)
    else
      (.error .authenticationError, 0, 0)
  else
    match v with
    | .ok => (.ok (), 0, 1)
    | .authError => (.error .authenticationError, 0, 1)

/-! ## Subscription registry and subscribe -/

/-- The scope_mapping dict of get_required_scopes_for_subscription,
transcribed entry for entry. -/
def scope_mapping : List (String × List String) :=
  [ ("channel.follow", ["moderator:read:followers"])
  , ("channel.subscribe", ["channel:read:subscriptions"])
  , ("channel.subscription.gift", ["channel:read:subscriptions"])
  , ("channel.subscription.message", ["channel:read:subscriptions"])
  , ("channel.cheer", ["bits:read"])
  , ("channel.raid", ["channel:read:raids"])
  , ("channel.poll.begin", ["channel:read:polls"])
  , ("channel.poll.progress", ["channel:read:polls"])
  , ("channel.poll.end", ["channel:read:polls"])
  , ("channel.prediction.begin", ["channel:read:predictions"])
  , ("channel.prediction.progress", ["channel:read:predictions"])
  , ("channel.prediction.lock", ["channel:read:predictions"])
  , ("channel.prediction.end", ["channel:read:predictions"])
  , ("channel.hype_train.begin", ["channel:read:hype_train"])
  , ("channel.hype_train.progress", ["channel:read:hype_train"])
  , ("channel.hype_train.end", ["channel:read:hype_train"])
  , ("channel.goal.begin", ["channel:read:goals"])
  , ("channel.goal.progress", ["channel:read:goals"])
  , ("channel.goal.end", ["channel:read:goals"])
  , ("channel.charity_campaign.donate", ["channel:read:charity"])
  , ("channel.charity_campaign.start", ["channel:read:charity"])
  , ("channel.charity_campaign.progress", ["channel:read:charity"])
  , ("channel.charity_campaign.stop", ["channel:read:charity"])
  , ("drop.entitlement.grant", ["channel:read:redemptions"])
  , ("extension.bits_transaction.create", ["bits:read"])
  , ("channel.channel_points_custom_reward.add", ["channel:read:redemptions"])
  , ("channel.channel_points_custom_reward.update", ["channel:read:redemptions"])
  , ("channel.channel_points_custom_reward.remove", ["channel:read:redemptions"])
  , ("channel.channel_points_custom_reward_redemption.add", ["channel:read:redemptions"])
  , ("channel.channel_points_custom_reward_redemption.update", ["channel:read:redemptions"])
  , ("channel.shield_mode.begin", ["moderator:read:shield_mode"])
  , ("channel.shield_mode.end", ["moderator:read:shield_mode"])
  , ("channel.shoutout.create", ["moderator:read:shoutouts"])
  , ("channel.shoutout.receive", ["moderator:read:shoutouts"])
  , ("stream.online", [])
  , ("stream.offline", [])
  ]

/-- TwitchEventSub.get_required_scopes_for_subscription:
scope_mapping.get(subscription_type, []). -/
def get_required_scopes_for_subscription (subscription_type : String) :
    List String :=
  (dictGet scope_mapping subscription_type).getD []

/-- Outcome of the POST to the event-subscriptions endpoint: the 202
accepted status, any other status, or a transport/unexpected error
(both excepts return False after the call was issued). -/
inductive SubNet where
  | accepted
  | rejected
  | clientError
  deriving DecidableEq, Repr

/-- TwitchEventSub.subscribe_to_event.  Returns (result, whether the
subscription network call was issued).  The guard on the scope check is
the source nesting (if required_scopes and token_type == user: if
missing_scopes: return False) flattened into one conjunction, which is
equivalent because computing missing_scopes is pure. -/
def subscribe_to_event (session_id : Option Json) (ts : TokenSet)
    (now : Nat) (r v : CallResult) (subscription_type : String)
    (net : SubNet) : Except PyError Bool × Bool :=
  if pyTruthy session_id = false then
    (.ok false, false)
  else
    match (ensure_valid_token ts now r v).1 with
    | .error e => (.error e, false)
    | .ok _ =>
      let required_scopes := get_required_scopes_for_subscription subscription_type
      let missing_scopes := required_scopes.filter (fun sc => !(ts.scopes.contains sc))
      if (!required_scopes.isEmpty && (ts.token_type == "user")) && !missing_scopes.isEmpty then
        (.ok false, false)
      else
        match net with
        | .accepted => (.ok true, true)
        | .rejected => (.ok false, true)
        | .clientError => (.ok false, true)

/-! ## Session state, frame processing, disconnect, migration -/

/-- The connection-related attributes of the client.  The transport is
an abstract handle (websockets objects have default truthiness, so
Option is the exact model of the truthiness tests on self.websocket).
session_id, keepalive_timeout and reconnect_url hold whatever JSON
values the frames carried, as the Python assignments do. -/
structure ClientState where
  session_id : Option Json
  keepalive_timeout : Json
  reconnect_url : Option Json
  is_connected : Bool
  is_reconnecting : Bool
  websocket : Option Nat

/-- One inbound WebSocket frame: either text that json.loads decodes to
a JSON value, or text/bytes on which json.loads raises. -/
inductive RawMessage where
  | jsonMsg (data : Json)
  | badJson

/-- TwitchEventSub._handle_welcome_message.  The nested matches follow
the attribute accesses: data is a dict at every call site; a non-dict
payload or session makes .get raise AttributeError, which the handler
try/except swallows before any assignment or callback. -/
def handle_welcome_message (reg : Registry) (st : ClientState)
    (data : Json) : ClientState × List (Nat × Json) :=
  match data with
  | .obj dfields =>
    match (dictGet dfields "payload").getD (.obj []) with
    | .obj pfields =>
      match (dictGet pfields "session").getD (.obj []) with
      | .obj sfields =>
        let st' := { st with
          session_id := dictGet sfields "id"
          keepalive_timeout :=
            (dictGet sfields "keepalive_timeout_seconds").getD (.num 10) }
        (st', (trigger_callback reg "welcome" data).1)
      | _ => (st, [])
    | _ => (st, [])
  | _ => (st, [])

/-- TwitchEventSub._handle_notification_message: extract
subscription_type from metadata and the nested event object from the
payload, fire the callbacks bound to the subscription type with the
event object, then the generic notification callbacks with the full
frame.  A non-dict metadata or payload raises inside the handler
try/except before any callback fires. -/
def handle_notification_message (reg : Registry) (data : Json) :
    List (Nat × Json) :=
  match data with
  | .obj dfields =>
    match (dictGet dfields "metadata").getD (.obj []) with
    | .obj mfields =>
      let subscription_type := dictGet mfields "subscription_type"
      match (dictGet dfields "payload").getD (.obj []) with
      | .obj pfields =>
        let event_data := (dictGet pfields "event").getD (.obj [])
        triggerByKey reg subscription_type event_data ++
          (trigger_callback reg "notification" data).1
      | _ => []
    | _ => []
  | _ => []

/-- TwitchEventSub._handle_reconnect_message: record the migration URL,
set is_reconnecting, fire the reconnect callbacks, and spawn the
_reconnect task (third component of the result). -/
def handle_reconnect_message (reg : Registry) (st : ClientState)
    (data : Json) : ClientState × List (Nat × Json) × Bool :=
  match data with
  | .obj dfields =>
    match (dictGet dfields "payload").getD (.obj []) with
    | .obj pfields =>
      match (dictGet pfields "session").getD (.obj []) with
      | .obj sfields =>
        let st' := { st with
          reconnect_url := dictGet sfields "reconnect_url"
          is_reconnecting := true }
        (st', (trigger_callback reg "reconnect" data).1, true)
      | _ => (st, [], false)
    | _ => (st, [], false)
  | _ => (st, [], false)

/-- TwitchEventSub._handle_revocation_message: log and fire the
revocation callbacks (a non-dict payload raises before the callback). -/
def handle_revocation_message (reg : Registry) (data : Json) :
    List (Nat × Json) :=
  match data with
  | .obj dfields =>
    match (dictGet dfields "payload").getD (.obj []) with
    | .obj _ => (trigger_callback reg "revocation" data).1
    | _ => []
  | _ => []

/-- TwitchEventSub._process_message: decode, read
metadata.message_type, and route.  Every exception path of the source
(JSON decode failure, attribute errors on non-dict values, unknown
discriminators) ends in the frame being logged and dropped: state
unchanged, no callback, no task spawned.  Result: (new state,
invocation trace, whether a _reconnect task was spawned). -/
def process_message (reg : Registry) (st : ClientState)
    (msg : RawMessage) : ClientState × List (Nat × Json) × Bool :=
  match msg with
  | .badJson => (st, [], false)
  | .jsonMsg data =>
    match data with
    | .obj dfields =>
      match (dictGet dfields "metadata").getD (.obj []) with
      | .obj mfields =>
        match dictGet mfields "message_type" with
        | some (.str "session_welcome") =>
          let p := handle_welcome_message reg st data
          (p.1, p.2, false)
        | some (.str "session_keepalive") =>
          (st, (trigger_callback reg "keepalive" data).1, false)
        | some (.str "notification") =>
          (st, handle_notification_message reg data, false)
        | some (.str "session_reconnect") =>
          handle_reconnect_message reg st data
        | some (.str "revocation") =>
          (st, handle_revocation_message reg data, false)
        | _ => (st, [], false)
      | _ => (st, [], false)
    | _ => (st, [], false)

/-- The frame loop of TwitchEventSub._handle_messages: process the
inbound frames in order, accumulating the invocation trace. -/
def handle_messages (reg : Registry) :
    ClientState → List RawMessage → ClientState × List (Nat × Json)
  | st, [] => (st, [])
  | st, m :: rest =>
    let p := process_message reg st m
    let q := handle_messages reg p.1 rest
    (q.1, p.2.1 ++ q.2)

/-- TwitchEventSub.disconnect: when a transport is held, close it and
then (in the finally block) clear is_connected and the handle; when no
transport is held, do nothing at all. -/
def disconnect (st : ClientState) : ClientState :=
  match st.websocket with
  | some _ => { st with is_connected := false, websocket := none }
  | none => st

/-- Outcome of the migration attempt network steps inside _reconnect:
the websockets.connect call raises, the first recv raises, or a first
frame arrives. -/
inductive ReconnectNet where
  | connectFail
  | recvFail
  | firstFrame (m : RawMessage)

/-- TwitchEventSub._reconnect, the migration hand-off: bail out if no
reconnect URL is recorded; on a connect or recv failure clear
is_reconnecting and keep the old transport; otherwise run the received
first frame through _process_message, close the old transport, adopt
the new one, clear is_reconnecting and reset reconnect_url.  newWs is
the handle of the freshly opened transport.  The subsequent
_handle_messages loop on the adopted transport is not part of this
function. -/
def reconnect_attempt (reg : Registry) (st : ClientState) (newWs : Nat)
    (net : ReconnectNet) : ClientState × List (Nat × Json) :=
  if pyTruthy st.reconnect_url = false then
    (st, [])
  else
    match net with
    | .connectFail => ({ st with is_reconnecting := false }, [])
    | .recvFail => ({ st with is_reconnecting := false }, [])
    | .firstFrame m =>
      let p := process_message reg st m
      ({ p.1 with
          websocket := some newWs
          is_reconnecting := false
          reconnect_url := none }, p.2.1)

/-! ## Reconnection controller (run loop) -/

/-- What one iteration of TwitchEventSub.run observes from connect():
a normal return (the connection ran and ended), or one of the caught
exception classes. -/
inductive RunEvent where
  | ret
  | exConn
  | exAuth
  | exOther
  deriving DecidableEq, Repr

/-- One iteration of the run loop: given the current
reconnect_attempts counter and the connect() outcome, return the sleep
performed (none means no sleep) and the new counter.  Constants from
the source: max_reconnect_attempts = 5, base_delay = 1, max_delay = 60,
the fixed long wait 60 and the fixed short wait 5. -/
def run_step : Nat → RunEvent → Option Nat × Nat
  | _, .ret => (none, 0)
  | a, .exConn =>
    if a < 5 then (some (min (1 * 2 ^ a) 60), a + 1) else (some 60, 0)
  | a, .exAuth =>
    if a < 5 then (some (min (1 * 2 ^ a) 60), a + 1) else (some 60, 0)
  | a, .exOther => (some 5, a)

/-- The run loop folded over a finite prefix of connect() outcomes:
the list of sleeps performed and the final counter.  The while-True
loop has no exit, so every outcome in the prefix is consumed. -/
def run_trace : Nat → List RunEvent → List (Option Nat) × Nat
  | a, [] => ([], a)
  | a, e :: es =>
    let p := run_step a e
    let q := run_trace p.2 es
    (p.1 :: q.1, q.2)

/-! ## Concrete instances used in closed theorems -/

/-- A user-kind token set whose expiry makes the refresh branch fire
at times close to 100. -/
def exampleTokens : TokenSet :=
  { access_token := some "tok", refresh_token := some "ref"
    token_type := "user", token_expires_at := some 100, scopes := [] }

/-- A user-kind token set with no recorded expiry and no scopes. -/
def exampleUserTokens : TokenSet :=
  { access_token := some "tok", refresh_token := none
    token_type := "user", token_expires_at := none, scopes := [] }

/-- Same token set as exampleUserTokens with bits:read granted. -/
def exampleUserTokensBits : TokenSet :=
  { exampleUserTokens with scopes := ["bits:read"] }

/-- The event payload of the worked notification example. -/
def exampleEvent : Json := Json.obj [("broadcaster_user_name", Json.str "X")]

/-- A stream.online notification frame carrying exampleEvent. -/
def exampleNotificationFrame : Json :=
  Json.obj
    [ ("metadata", Json.obj
        [ ("message_type", Json.str "notification")
        , ("subscription_type", Json.str "stream.online") ])
    , ("payload", Json.obj [("event", exampleEvent)]) ]

/-- A registry with handler 1 bound to stream.online and handler 2
bound to the generic notification type. -/
def exampleReg : Registry :=
  [ ("stream.online", [{ hid := 1, fails := false }])
  , ("notification", [{ hid := 2, fails := false }]) ]

/-- A connected client holding a transport and a session id. -/
def exampleConn : ClientState :=
  { session_id := some (Json.str "S1"), keepalive_timeout := Json.num 10
    reconnect_url := none, is_connected := true, is_reconnecting := false
    websocket := some 1 }

/-- A client in the middle of a migration: reconnect URL recorded,
is_reconnecting set, old transport still held. -/
def exampleMigrating : ClientState :=
  { session_id := some (Json.str "S1"), keepalive_timeout := Json.num 10
    reconnect_url := some (Json.str "wss://new"), is_connected := true
    is_reconnecting := true, websocket := some 1 }

/-- A session_keepalive frame. -/
def exampleKeepaliveFrame : Json :=
  Json.obj [("metadata", Json.obj [("message_type", Json.str "session_keepalive")])]

/-- Extraction of metadata.message_type from a frame, as the router
reads it; used to state frame-routing counterexamples. -/
def frameMessageType (j : Json) : Option Json :=
  match j with
  | .obj dfields =>
    match (dictGet dfields "metadata").getD (.obj []) with
    | .obj mfields => dictGet mfields "message_type"
    | _ => none
  | _ => none

/-! ## Helper lemmas -/

/-- A key absent from the key list is not found. -/
theorem dictGet_eq_none_of_not_mem {β : Type} (tbl : List (String × β))
    (k : String) (h : k ∉ tbl.map Prod.fst) : dictGet tbl k = none := by
  induction tbl with
  | nil => rfl
  | cons p rest ih =>
    simp only [List.map_cons, List.mem_cons] at h
    push_neg at h
    cases p with
    | mk k' v =>
      simp only [dictGet]
      rw [if_neg (fun hk => h.1 hk.symm)]
      exact ih h.2

/-- On a key-unique table, removing a key makes it unfindable. -/
theorem dictGet_dictRemove_self {β : Type} (tbl : List (String × β))
    (k : String) (h : (tbl.map Prod.fst).Nodup) :
    dictGet (dictRemove tbl k) k = none := by
  induction tbl with
  | nil => rfl
  | cons p rest ih =>
    cases p with
    | mk k' v =>
      simp only [List.map_cons, List.nodup_cons] at h
      by_cases hk : k' = k
      · simp only [dictRemove, if_pos hk]
        exact dictGet_eq_none_of_not_mem rest k (hk ▸ h.1)
      · simp only [dictRemove, if_neg hk, dictGet, if_neg hk]
        exact ih h.2

/-- dictSet stores the given value at the given key. -/
theorem dictGet_dictSet_self {β : Type} (tbl : List (String × β))
    (k : String) (v : β) : dictGet (dictSet tbl k v) k = some v := by
  induction tbl with
  | nil => simp [dictSet, dictGet]
  | cons p rest ih =>
    cases p with
    | mk k' v' =>
      by_cases hk : k' = k
      · simp [dictSet, if_pos hk, dictGet]
      · simp only [dictSet, if_neg hk, dictGet, ih]

/-- Every handler in the list is invoked, in order, with the given
data, whether or not it fails. -/
theorem runHandlers_fst (hs : List Handler) (d : Json) :
    (runHandlers hs d).1 = hs.map (fun h => (h.hid, d)) := by
  induction hs with
  | nil => rfl
  | cons h rest ih =>
    simp only [runHandlers, invokeHandler]
    by_cases hf : h.fails <;> simp [hf, ih]

/-- The logged exceptions are exactly those of the failing handlers. -/
theorem runHandlers_snd (hs : List Handler) (d : Json) :
    (runHandlers hs d).2 = (hs.filter (fun h => h.fails)).map (fun h => h.hid) := by
  induction hs with
  | nil => rfl
  | cons h rest ih =>
    simp only [runHandlers, invokeHandler]
    by_cases hf : h.fails <;> simp [hf, ih]

/-- The invocation trace of _trigger_callback: the handlers bound to
the key (empty when unbound), each with the dispatched data. -/
theorem trigger_callback_fst (reg : Registry) (k : String) (d : Json) :
    (trigger_callback reg k d).1 =
      ((dictGet reg k).getD []).map (fun h => (h.hid, d)) := by
  unfold trigger_callback
  cases dictGet reg k with
  | none => rfl
  | some hs => simp [runHandlers_fst]

/-- The run loop consumes every outcome of a finite prefix: no outcome
causes the loop to exit. -/
theorem run_trace_length (a : Nat) (es : List RunEvent) :
    (run_trace a es).1.length = es.length := by
  induction es generalizing a with
  | nil => rfl
  | cons e rest ih => simp [run_trace, ih]

/-! ## Claims -/

/-- C2: ensure_valid_token follows the three-tier policy in order:
(a) with no access token held (None or empty, the Python truthiness of
the field) it fails with AuthenticationError issuing no calls; (b) when
token_expires_at is set (truthy) and now is at or past expiry minus
60s, it issues exactly one refresh call and no validate call provided a
refresh token is held and the kind is user — propagating a refresh
failure as AuthenticationError — and otherwise fails with
AuthenticationError without any call; (c) in every other state with an
access token it issues no refresh call and exactly one validate call,
propagating a validate failure as AuthenticationError. -/
theorem C2_ensure_valid_token_policy (ts : TokenSet) (now : Nat)
    (r v : CallResult) :
    (strTruthy ts.access_token = false →
        ensure_valid_token ts now r v = (.error .authenticationError, 0, 0)) ∧
    (strTruthy ts.access_token = true → tokenExpiringSoon ts now = true →
        strTruthy ts.refresh_token = true → ts.token_type = "user" →
        (ensure_valid_token ts now r v).2.1 = 1 ∧
        (ensure_valid_token ts now r v).2.2 = 0 ∧
        (r = .ok → (ensure_valid_token ts now r v).1 = .ok ()) ∧
        (r = .authError →
          (ensure_valid_token ts now r v).1 = .error .authenticationError)) ∧
    (strTruthy ts.access_token = true → tokenExpiringSoon ts now = true →
        (strTruthy ts.refresh_token = false ∨ ts.token_type ≠ "user") →
        ensure_valid_token ts now r v = (.error .authenticationError, 0, 0)) ∧
    (strTruthy ts.access_token = true → tokenExpiringSoon ts now = false →
        (ensure_valid_token ts now r v).2.1 = 0 ∧
        (ensure_valid_token ts now r v).2.2 = 1 ∧
        (v = .ok → (ensure_valid_token ts now r v).1 = .ok ()) ∧
        (v = .authError →
          (ensure_valid_token ts now r v).1 = .error .authenticationError)) := by
  refine ⟨?_, ?_, ?_, ?_⟩
  · intro h1
    simp [ensure_valid_token, h1]
  · intro h1 h2 h3 h4
    simp only [ensure_valid_token, h1, h2, h3, h4]
    cases r <;> simp
  · intro h1 h2 h3
    rcases h3 with h3 | h3
    · simp [ensure_valid_token, h1, h2, h3]
    · have hb : (ts.token_type == "user") = false := by
        simp [h3]
      simp [ensure_valid_token, h1, h2, hb]
  · intro h1 h2
    simp only [ensure_valid_token, h1, h2]
    cases v <;> simp

/-- C2 witness: a user token expiring at 100 checked at time 90 with a
succeeding refresh issues one refresh call and no validate call. -/
theorem C2_witness :
    (ensure_valid_token exampleTokens 90 .ok .ok).2.1 = 1 ∧
    (ensure_valid_token exampleTokens 90 .ok .ok).2.2 = 0 ∧
    (ensure_valid_token exampleTokens 90 .ok .ok).1 = .ok () := by
  have h := (C2_ensure_valid_token_policy exampleTokens 90 .ok .ok).2.1
    (by decide) (by decide) (by decide) (by decide)
  exact ⟨h.1, h.2.1, h.2.2.1 rfl⟩

/-- C3: the run loop applies exponential backoff to consecutive
ConnectionError or AuthenticationError failures: the delay before retry
attempt a (a = 0..4) is min(1 * 2 ^ a, 60) = 2 ^ a seconds, i.e.
1, 2, 4, 8, 16; after five consecutive failures the next failure waits
a fixed 60 seconds and resets the counter to zero; a successful
connect() resets the counter with no sleep; an unexpected failure
sleeps a fixed 5 seconds without consuming an attempt; and the loop
consumes every outcome of any finite prefix, never terminating on its
own. -/
theorem C3_run_backoff (a : Nat) (ha : a < 5) (es : List RunEvent) :
    run_step a .exConn = (some (min (1 * 2 ^ a) 60), a + 1) ∧
    run_step a .exAuth = (some (min (1 * 2 ^ a) 60), a + 1) ∧
    min (1 * 2 ^ a) 60 = 2 ^ a ∧
    run_step 5 .exConn = (some 60, 0) ∧
    run_step 5 .exAuth = (some 60, 0) ∧
    (∀ b, run_step b .ret = (none, 0)) ∧
    (∀ b, run_step b .exOther = (some 5, b)) ∧
    (run_trace 0 (List.replicate 6 .exConn)).1 =
      [some 1, some 2, some 4, some 8, some 16, some 60] ∧
    (run_trace 0 (List.replicate 6 .exConn)).2 = 0 ∧
    (run_trace a es).1.length = es.length := by
  have h16 : 2 ^ a ≤ 16 := by
    calc 2 ^ a ≤ 2 ^ 4 := Nat.pow_le_pow_right (by norm_num) (by omega)
    _ = 16 := by norm_num
  have hmin : min (1 * 2 ^ a) 60 = 2 ^ a := by
    rw [one_mul]
    exact min_eq_left (le_trans h16 (by norm_num))
  refine ⟨by simp [run_step, ha], by simp [run_step, ha], hmin,
    by decide, by decide, fun b => rfl, fun b => rfl,
    by decide, by decide, run_trace_length a es⟩

/-- C3 witness: at attempt 3 a ConnectionError sleeps 8 seconds and
advances the counter to 4. -/
theorem C3_witness : run_step 3 .exConn = (some 8, 4) := by
  have h := C3_run_backoff 3 (by decide) []
  rw [h.1, h.2.2.1]
  norm_num

/-- C8: registering appends to the ordered handler list of the event
type, so dispatch fires all retained registrations in registration
order; every bound handler is invoked in order with the dispatched
payload whether or not it fails; a failing handler is merely logged and
stops neither the remaining handlers nor the dispatcher; dispatching a
type with no bound handlers is a no-op. -/
theorem C8_dispatcher (reg : Registry) (t : String) (h : Handler)
    (hs : List Handler) (d : Json) :
    (trigger_callback (add_event_callback reg t h) t d).1 =
      (trigger_callback reg t d).1 ++ [(h.hid, d)] ∧
    (runHandlers hs d).1 = hs.map (fun x => (x.hid, d)) ∧
    (runHandlers hs d).2 =
      (hs.filter (fun x => x.fails)).map (fun x => x.hid) ∧
    (dictGet reg t = none → trigger_callback reg t d = ([], [])) := by
  refine ⟨?_, runHandlers_fst hs d, runHandlers_snd hs d, ?_⟩
  · rw [trigger_callback_fst, trigger_callback_fst]
    unfold add_event_callback
    rw [dictGet_dictSet_self]
    simp
  · intro hn
    simp [trigger_callback, hn]

/-- C8 witness: dispatching on an empty registry is a no-op. -/
theorem C8_witness : trigger_callback [] "stream.online" Json.null = ([], []) :=
  (C8_dispatcher [] "stream.online" { hid := 0, fails := false } []
    Json.null).2.2.2 rfl

/-- C4: exchange_code_for_token fails with InvalidState when the state
is unknown (or already consumed), fails with ExpiredState when the
recorded state is older than 300 seconds, and on both failure paths
leaves the TokenSet unchanged; a state that passes both checks (in
particular one aged 299s, while one aged 301s is expired) proceeds to
the token exchange, whose outcome alone decides the result. -/
theorem C4_exchange_state_validation (states : List (String × OAuthState))
    (ts : TokenSet) (now : Nat) (s : String) (net : ExchangeNet)
    (od : OAuthState) :
    (dictGet states s = none →
        exchange_code_for_token states ts now s net =
          (.error .invalidState, states, ts)) ∧
    (dictGet states s = some od → od.timestamp + 300 < now →
        exchange_code_for_token states ts now s net =
          (.error .expiredState, dictRemove states s, ts)) ∧
    (dictGet states s = some od → ¬ (od.timestamp + 300 < now) →
        exchange_code_for_token states ts now s net =
          match net with
          | .success td =>
            (.ok (), dictRemove states s, store_token_data ts now td)
          | .failure =>
            (.error .authenticationError, dictRemove states s, ts)) := by
  refine ⟨?_, ?_, ?_⟩
  · intro h1
    simp [exchange_code_for_token, h1]
  · intro h1 h2
    simp [exchange_code_for_token, h1, OAUTH_STATE_EXPIRY, h2]
  · intro h1 h2
    simp only [exchange_code_for_token, h1, OAUTH_STATE_EXPIRY]
    rw [if_neg h2]

/-- C4 witness: a state recorded at time 1000 is rejected as expired at
1301 with no token change, and at 1299 it passes the state checks and
the result is decided by the token endpoint. -/
theorem C4_witness :
    exchange_code_for_token [("s1", { scopes := ["chat:read"], timestamp := 1000 })]
        exampleTokens 1301 "s1" .failure =
      (.error .expiredState, [], exampleTokens) ∧
    (exchange_code_for_token [("s1", { scopes := ["chat:read"], timestamp := 1000 })]
        exampleTokens 1299 "s1" .failure).1 = .error .authenticationError := by
  constructor
  · exact (C4_exchange_state_validation
      [("s1", { scopes := ["chat:read"], timestamp := 1000 })]
      exampleTokens 1301 "s1" .failure
      { scopes := ["chat:read"], timestamp := 1000 }).2.1 rfl (by norm_num)
  · rw [(C4_exchange_state_validation
      [("s1", { scopes := ["chat:read"], timestamp := 1000 })]
      exampleTokens 1299 "s1" .failure
      { scopes := ["chat:read"], timestamp := 1000 }).2.2 rfl (by norm_num)]

/-- C10: the expired-state failure path of exchange_code_for_token
consumes the state entry (the pop precedes the age check), so on a
key-unique state table a second call with the same state value finds no
entry and fails with InvalidState rather than ExpiredState. -/
theorem C10_expired_state_consumed (states : List (String × OAuthState))
    (ts ts2 : TokenSet) (now now2 : Nat) (s : String)
    (net net2 : ExchangeNet) (od : OAuthState)
    (hnd : (states.map Prod.fst).Nodup)
    (hget : dictGet states s = some od)
    (hexp : od.timestamp + 300 < now) :
    exchange_code_for_token states ts now s net =
      (.error .expiredState, dictRemove states s, ts) ∧
    dictGet (dictRemove states s) s = none ∧
    (exchange_code_for_token (dictRemove states s) ts2 now2 s net2).1 =
      .error .invalidState := by
  have hrm := dictGet_dictRemove_self states s hnd
  refine ⟨?_, hrm, ?_⟩
  · simp [exchange_code_for_token, hget, OAUTH_STATE_EXPIRY, hexp]
  · simp [exchange_code_for_token, hrm]

/-- C10 witness: the state recorded at 1000 and presented at 1301 is
consumed by the ExpiredState failure, and presenting it again fails
with InvalidState. -/
theorem C10_witness :
    exchange_code_for_token [("s1", { scopes := [], timestamp := 1000 })]
        exampleTokens 1301 "s1" .failure =
      (.error .expiredState, [], exampleTokens) ∧
    (exchange_code_for_token [] exampleTokens 1301 "s1" .failure).1 =
      .error .invalidState := by
  have h := C10_expired_state_consumed
    [("s1", { scopes := [], timestamp := 1000 })] exampleTokens exampleTokens
    1301 1301 "s1" .failure .failure { scopes := [], timestamp := 1000 }
    (by simp) rfl (by norm_num)
  exact ⟨h.1, h.2.2⟩

/-- C5: subscribe_to_event returns false without any network call when
no active session id is present (Python truthiness of session_id);
otherwise it runs ensure_valid_token and propagates its
AuthenticationError without a network call; when the held token is
user-kind and the set difference between the required scopes of the
subscription type and the granted scopes is non-empty it returns false
without the subscription network call; when the difference is empty, or
the token is not user-kind, the subscription call is issued. -/
theorem C5_subscribe_gate (session_id : Option Json) (ts : TokenSet)
    (now : Nat) (r v : CallResult) (stype : String) (net : SubNet)
    (e : PyError) :
    (pyTruthy session_id = false →
        subscribe_to_event session_id ts now r v stype net =
          (.ok false, false)) ∧
    (pyTruthy session_id = true →
        (ensure_valid_token ts now r v).1 = .error e →
        subscribe_to_event session_id ts now r v stype net =
          (.error e, false)) ∧
    (pyTruthy session_id = true →
        (ensure_valid_token ts now r v).1 = .ok () →
        ts.token_type = "user" →
        (get_required_scopes_for_subscription stype).filter
            (fun sc => !(ts.scopes.contains sc)) ≠ [] →
        subscribe_to_event session_id ts now r v stype net =
          (.ok false, false)) ∧
    (pyTruthy session_id = true →
        (ensure_valid_token ts now r v).1 = .ok () →
        (get_required_scopes_for_subscription stype).filter
            (fun sc => !(ts.scopes.contains sc)) = [] →
        (subscribe_to_event session_id ts now r v stype net).2 = true) ∧
    (pyTruthy session_id = true →
        (ensure_valid_token ts now r v).1 = .ok () →
        ts.token_type ≠ "user" →
        (subscribe_to_event session_id ts now r v stype net).2 = true) := by
  refine ⟨?_, ?_, ?_, ?_, ?_⟩
  · intro h1
    simp [subscribe_to_event, h1]
  · intro h1 h2
    simp [subscribe_to_event, h1, h2]
  · intro h1 h2 h3 h4
    have hreqne : get_required_scopes_for_subscription stype ≠ [] := by
      intro hz
      exact h4 (by rw [hz]; rfl)
    have hP : (¬ get_required_scopes_for_subscription stype = [] ∧
        ts.token_type = "user") ∧
        ∃ x ∈ get_required_scopes_for_subscription stype, x ∉ ts.scopes := by
      refine ⟨⟨hreqne, h3⟩, ?_⟩
      obtain ⟨y, hy⟩ := List.exists_mem_of_ne_nil _ h4
      have hyf := List.mem_filter.mp hy
      refine ⟨y, hyf.1, ?_⟩
      simpa using hyf.2
    simp [subscribe_to_event, h1, h2, hP]
  · intro h1 h2 h3
    have hP : ¬ ((¬ get_required_scopes_for_subscription stype = [] ∧
        ts.token_type = "user") ∧
        ∃ x ∈ get_required_scopes_for_subscription stype, x ∉ ts.scopes) := by
      rintro ⟨-, x, hx, hnx⟩
      have hfx := List.filter_eq_nil_iff.mp h3 x hx
      simp at hfx
      exact hnx hfx
    cases net <;> simp [subscribe_to_event, h1, h2, hP]
  · intro h1 h2 h3
    have hP : ¬ ((¬ get_required_scopes_for_subscription stype = [] ∧
        ts.token_type = "user") ∧
        ∃ x ∈ get_required_scopes_for_subscription stype, x ∉ ts.scopes) := by
      rintro ⟨⟨-, hu⟩, -⟩
      exact h3 hu
    cases net <;> simp [subscribe_to_event, h1, h2, hP]

/-- C5 witness: subscribing to channel.cheer with a user-kind token
lacking bits:read returns false without issuing the network call, and
granting bits:read makes the call be issued. -/
theorem C5_witness :
    subscribe_to_event (some (Json.str "sess")) exampleUserTokens 0
        .ok .ok "channel.cheer" .accepted = (.ok false, false) ∧
    (subscribe_to_event (some (Json.str "sess")) exampleUserTokensBits 0
        .ok .ok "channel.cheer" .accepted).2 = true := by
  constructor
  · exact (C5_subscribe_gate (some (Json.str "sess")) exampleUserTokens 0
      .ok .ok "channel.cheer" .accepted .authenticationError).2.2.1
      (by decide) rfl rfl (by decide)
  · exact (C5_subscribe_gate (some (Json.str "sess")) exampleUserTokensBits 0
      .ok .ok "channel.cheer" .accepted .authenticationError).2.2.2.1
      (by decide) rfl (by decide)

/-- C7: for every inbound notification frame, the handler extracts
subscription_type from the metadata and the nested event object from
the payload, fires the callbacks bound to that subscription type with
exactly the event object, and then fires the callbacks bound to the
generic notification type with the full frame, in that order. -/
theorem C7_notification_dispatch (reg : Registry)
    (dfields mfields pfields : List (String × Json)) (stype : String)
    (hm : (dictGet dfields "metadata").getD (.obj []) = .obj mfields)
    (hst : dictGet mfields "subscription_type" = some (.str stype))
    (hp : (dictGet dfields "payload").getD (.obj []) = .obj pfields) :
    handle_notification_message reg (.obj dfields) =
      ((dictGet reg stype).getD []).map
        (fun h => (h.hid, (dictGet pfields "event").getD (.obj []))) ++
      ((dictGet reg "notification").getD []).map
        (fun h => (h.hid, Json.obj dfields)) := by
  simp only [handle_notification_message, hm, hp, hst]
  simp [triggerByKey, trigger_callback_fst]

/-- C7 witness: a stream.online notification with event payload
exampleEvent invokes the handler bound to stream.online with exactly
that payload and then the generic notification handler with the full
frame. -/
theorem C7_witness :
    handle_notification_message exampleReg exampleNotificationFrame =
      [(1, exampleEvent), (2, exampleNotificationFrame)] := by
  have h := C7_notification_dispatch exampleReg
    [ ("metadata", Json.obj
        [ ("message_type", Json.str "notification")
        , ("subscription_type", Json.str "stream.online") ])
    , ("payload", Json.obj [("event", exampleEvent)]) ]
    [ ("message_type", Json.str "notification")
    , ("subscription_type", Json.str "stream.online") ]
    [("event", exampleEvent)] "stream.online" rfl rfl rfl
  exact h.trans rfl

/-- C9: a frame whose bytes do not decode to valid JSON is logged and
dropped without raising: the client state is unchanged, no callback is
fired, no task is spawned, and the frame loop goes on to process the
remaining frames exactly as if the malformed frame had not arrived. -/
theorem C9_malformed_json (reg : Registry) (st : ClientState)
    (pre post : List RawMessage) :
    process_message reg st .badJson = (st, [], false) ∧
    handle_messages reg st (pre ++ RawMessage.badJson :: post) =
      handle_messages reg st (pre ++ post) := by
  refine ⟨rfl, ?_⟩
  induction pre generalizing st with
  | nil => simp [handle_messages, process_message]
  | cons m rest ih => simp [handle_messages, ih]

/-- C6 counterexample: disconnecting the example connected client marks
it not connected and clears the transport handle, but the session id
survives: the claim that disconnect clears the session state including
the session id is false on this input. -/
theorem C6_counterexample :
    (disconnect exampleConn).is_connected = false ∧
    (disconnect exampleConn).websocket = none ∧
    (disconnect exampleConn).session_id = some (Json.str "S1") ∧
    (disconnect exampleConn).session_id ≠ none := by
  refine ⟨rfl, rfl, rfl, ?_⟩
  intro hc
  rw [show (disconnect exampleConn).session_id = some (Json.str "S1") from rfl] at hc
  exact Option.noConfusion hc

/-- C6 amended: when a transport handle is present, disconnect() closes
it, marks the connection not connected and clears the transport handle;
when no transport is present the state is unchanged (is_connected is
not even reset); in neither case is the session id cleared: it is left
exactly as it was. -/
theorem C6_amended_disconnect (st : ClientState) :
    (∀ w, st.websocket = some w →
        disconnect st = { st with is_connected := false, websocket := none }) ∧
    (st.websocket = none → disconnect st = st) ∧
    (disconnect st).session_id = st.session_id := by
  refine ⟨?_, ?_, ?_⟩
  · intro w hw
    simp [disconnect, hw]
  · intro hw
    simp [disconnect, hw]
  · cases hw : st.websocket <;> simp [disconnect, hw]

/-- C6 witness: disconnecting the example connected client clears only
is_connected and the transport handle. -/
theorem C6_witness :
    disconnect exampleConn =
      { exampleConn with is_connected := false, websocket := none } :=
  (C6_amended_disconnect exampleConn).1 1 rfl

/-- C1 counterexample: during a migration hand-off whose first frame on
the new transport is a session_keepalive (not a session_welcome), the
client still adopts the new transport as current (websocket handle 2),
so the claim that a non-welcome first frame prevents adoption is false
on this input; the session id is simply left unchanged. -/
theorem C1_counterexample :
    frameMessageType exampleKeepaliveFrame =
      some (Json.str "session_keepalive") ∧
    Json.str "session_keepalive" ≠ Json.str "session_welcome" ∧
    (reconnect_attempt [] exampleMigrating 2
        (.firstFrame (.jsonMsg exampleKeepaliveFrame))).1.websocket = some 2 ∧
    (reconnect_attempt [] exampleMigrating 2
        (.firstFrame (.jsonMsg exampleKeepaliveFrame))).1.session_id =
      some (Json.str "S1") := by
  refine ⟨rfl, ?_, rfl, rfl⟩
  intro hc
  injection hc with hs
  exact absurd hs (by decide)

/-- C1 amended: on a migration attempt with a reconnect URL recorded,
a failure of the new connect or of the first receive clears
is_reconnecting and does not adopt the new transport; when a first
frame arrives, it is run through the normal frame router and the new
transport is then unconditionally adopted as current (old transport
closed, is_reconnecting cleared, reconnect URL reset) regardless of the
frame type, the rest of the state — in particular whether a new session
id is installed — being exactly what the router made of that frame. -/
theorem C1_amended_reconnect (reg : Registry) (st : ClientState)
    (newWs : Nat) (m : RawMessage)
    (h : pyTruthy st.reconnect_url = true) :
    reconnect_attempt reg st newWs .connectFail =
      ({ st with is_reconnecting := false }, []) ∧
    reconnect_attempt reg st newWs .recvFail =
      ({ st with is_reconnecting := false }, []) ∧
    (reconnect_attempt reg st newWs (.firstFrame m)).1 =
      { (process_message reg st m).1 with
          websocket := some newWs
          is_reconnecting := false
          reconnect_url := none } ∧
    (reconnect_attempt reg st newWs (.firstFrame m)).2 =
      (process_message reg st m).2.1 := by
  simp [reconnect_attempt, h]

/-- C1 witness: a migration attempt whose connect fails clears
is_reconnecting and keeps the old transport. -/
theorem C1_witness :
    reconnect_attempt [] exampleMigrating 2 .connectFail =
      ({ exampleMigrating with is_reconnecting := false }, []) :=
  (C1_amended_reconnect [] exampleMigrating 2 .badJson (by rfl)).1
